import Mathlib

/-!
Shallow embedding of the `jmgao/tracing` repository (crates `tracing_facade`
and `tracing_chromium`) and proofs about the claims of its specification.

Rust source files embedded here:
  * `src/tracing_facade/src/lib.rs` — the facade: `EventKind`, `Event`,
    `Metadata`, the global tracer registry (`STATE`, `TRACER`,
    `set_tracer_impl`) and the four entry points `is_enabled`,
    `supports_metadata`, `record_event`, `flush`.
  * `src/tracing_chromium/src/lib.rs` — the Chromium trace-event backend:
    `Tracer::from_output`, `Record`, `write_event`, `flush`.

Conventions of the embedding:
  * `serde_json::Value` is embedded as the inductive `Json` below (numbers
    are embedded as integers; no claim depends on float payloads).
  * Machine integers that the code truncates (`gettid::gettid() as u32`)
    are embedded as `Nat` with an explicit `% 2^32`.
  * The byte sink `Box<dyn std::io::Write + Send>` is embedded as `Sink`:
    an accumulated string plus a schedule of write outcomes, so that a
    write can fail exactly as an `std::io::Write` call can.  The code
    discards every `Result` from the sink (`let _ = ...`); the embedding
    mirrors that by dropping the `Except` component of `Sink.write`.
  * Ambient values read inside `write_event` (`time::precise_time_ns()`,
    `std::process::id()`, `gettid::gettid()`) are passed as explicit
    parameters.
-/

/-- Embedding of `serde_json::Value` (object fields keep insertion order,
as `serde_json` does with the `preserve_order` behaviour used for struct
serialization; struct fields serialize in declaration order). -/
inductive Json where
  | null : Json
  | bool (b : Bool) : Json
  | num (n : Int) : Json
  | str (s : String) : Json
  | arr (elems : List Json) : Json
  | obj (fields : List (String × Json)) : Json
deriving Repr

/-- Field lookup in a serialized JSON object; `none` when the value is not
an object or the key is absent (i.e. the field is omitted). -/
def Json.lookupField : Json → String → Option Json
  | Json.obj fields, key => fields.lookup key
  | _, _ => none

/-- Embedding of `tracing_facade::EventKind` (src/tracing_facade/src/lib.rs,
`SyncBegin` / `SyncEnd`). -/
inductive EventKind where
  | syncBegin : EventKind
  | syncEnd : EventKind
deriving DecidableEq, Repr

/-- Embedding of `tracing_facade::Metadata`: a struct holding
`json: Option<serde_json::Value>`. -/
structure Metadata where
  json : Option Json

/-- Embedding of `Metadata::as_json` (returns `self.json.as_ref()`; the
borrow is dropped in the embedding). -/
def Metadata.as_json (m : Metadata) : Option Json :=
  m.json

/-- Embedding of `Metadata::into_json` (returns `self.json`). -/
def Metadata.into_json (m : Metadata) : Option Json :=
  m.json

/-- Embedding of `Metadata::from_json`. -/
def Metadata.from_json (j : Json) : Metadata :=
  { json := some j }

/-- Embedding of `impl Default for Metadata` (`Metadata { json: None }`). -/
def Metadata.mkDefault : Metadata :=
  { json := none }

/-- Embedding of `tracing_facade::Event` (the borrowed/owned `Cow` name is
embedded as a `String`). -/
structure Event where
  name : String
  kind : EventKind
  metadata : Metadata

/-!
The Chromium backend (`src/tracing_chromium/src/lib.rs`).
-/

/-- Embedding of the backend byte sink `Box<dyn std::io::Write + Send>`.
`content` is everything successfully written so far; `outcomes` is the
schedule of results the sink will give to upcoming calls (`true` = the call
fails with an I/O error, writing nothing; an exhausted schedule means every
further call succeeds).  Write calls are embedded at the granularity of the
calls the Rust code makes (`serde_json::to_writer`, `write_all`, `flush`). -/
structure Sink where
  content : String
  outcomes : List Bool

/-- One fallible write call on the sink.  Returns the `io::Result` (as
`Except Unit Unit`) together with the sink afterwards. -/
def Sink.write (s : Sink) (data : String) : Except Unit Unit × Sink :=
  match s.outcomes with
  | [] => (Except.ok (), { content := s.content ++ data, outcomes := [] })
  | failNext :: rest =>
    if failNext then
      (Except.error (), { content := s.content, outcomes := rest })
    else
      (Except.ok (), { content := s.content ++ data, outcomes := rest })

/-- One fallible `flush` call on the sink (`std::io::Write::flush`); the
embedded sink has no internal buffer, so the content is unchanged either
way. -/
def Sink.flushCall (s : Sink) : Except Unit Unit × Sink :=
  match s.outcomes with
  | [] => (Except.ok (), { content := s.content, outcomes := [] })
  | _ :: rest => (Except.ok (), { content := s.content, outcomes := rest })

/-- Hexadecimal digit used by the JSON string escaper (lowercase, as
`serde_json` emits). -/
def hexDigit (n : Nat) : String :=
  if n = 0 then "0" else if n = 1 then "1" else if n = 2 then "2"
  else if n = 3 then "3" else if n = 4 then "4" else if n = 5 then "5"
  else if n = 6 then "6" else if n = 7 then "7" else if n = 8 then "8"
  else if n = 9 then "9" else if n = 10 then "a" else if n = 11 then "b"
  else if n = 12 then "c" else if n = 13 then "d" else if n = 14 then "e"
  else "f"

/-- Escape one character of a JSON string the way `serde_json` does:
quote and backslash get a backslash escape, the control characters
backspace, tab, newline, form feed and carriage return get their short
escapes, other control characters get a `\u00xx` escape, and everything
else is emitted verbatim.  Character codes are compared numerically
(34 = quote, 92 = backslash). -/
def escapeChar (c : Char) : String :=
  if c.toNat = 34 then "\\\""
  else if c.toNat = 92 then "\\\\"
  else if c.toNat = 8 then "\\b"
  else if c.toNat = 9 then "\\t"
  else if c.toNat = 10 then "\\n"
  else if c.toNat = 12 then "\\f"
  else if c.toNat = 13 then "\\r"
  else if c.toNat < 32 then "\\u00" ++ hexDigit (c.toNat / 16) ++ hexDigit (c.toNat % 16)
  else String.singleton c

/-- Escape a whole JSON string body. -/
def escapeString (s : String) : String :=
  s.foldl (fun acc c => acc ++ escapeChar c) ""

mutual

/-- Compact JSON rendering as produced by `serde_json::to_writer` /
`serde_json::to_string` (no whitespace, fields in order). -/
def Json.render : Json → String
  | Json.null => "null"
  | Json.bool true => "true"
  | Json.bool false => "false"
  | Json.num n => toString n
  | Json.str s => "\"" ++ escapeString s ++ "\""
  | Json.arr elems => "[" ++ Json.renderElems elems ++ "]"
  | Json.obj fields => "\x7b" ++ Json.renderFields fields ++ "\x7d"

/-- Render the comma-separated elements of a JSON array. -/
def Json.renderElems : List Json → String
  | [] => ""
  | [x] => Json.render x
  | x :: y :: rest => Json.render x ++ "," ++ Json.renderElems (y :: rest)

/-- Render the comma-separated fields of a JSON object. -/
def Json.renderFields : List (String × Json) → String
  | [] => ""
  | [(k, v)] => "\"" ++ escapeString k ++ "\":" ++ Json.render v
  | (k, v) :: kv :: rest =>
    "\"" ++ escapeString k ++ "\":" ++ Json.render v ++ "," ++
      Json.renderFields (kv :: rest)

end

/-- Embedding of the serialized struct `Record` of
`src/tracing_chromium/src/lib.rs`: fields `name`, `ph`, `pid`, `tid`, `ts`
and `arg: Option<serde_json::Value>`, in declaration order. -/
structure Record where
  name : String
  ph : String
  pid : Nat
  tid : Nat
  ts : Nat
  arg : Option Json

/-- The JSON value `#[derive(Serialize)]` produces for a `Record`: every
field is serialized, in declaration order, and the `Option` field
serializes `None` as JSON `null` (the derive carries no
`skip_serializing_if` attribute). -/
def Record.toJson (r : Record) : Json :=
  Json.obj
    [ ("name", Json.str r.name)
    , ("ph", Json.str r.ph)
    , ("pid", Json.num r.pid)
    , ("tid", Json.num r.tid)
    , ("ts", Json.num r.ts)
    , ("arg", match r.arg with | none => Json.null | some j => j) ]

/-- The byte string `serde_json::to_writer` emits for a `Record`. -/
def Record.render (r : Record) : String :=
  (Record.toJson r).render

/-- The `Record` value `write_event` builds for an event, given the ambient
values it reads: `nowNs = time::precise_time_ns()` (divided by 1000 for the
`ts` field), `pid = std::process::id()`, and `tidRaw = gettid::gettid()`
(a `u64`, truncated by `as u32`).  The phase is `"B"` for `SyncBegin` and
`"E"` for `SyncEnd`; `arg` is `event.metadata.into_json()`. -/
def mkRecord (nowNs pid tidRaw : Nat) (event : Event) : Record :=
  { name := event.name
  , ph := match event.kind with
          | EventKind.syncBegin => "B"
          | EventKind.syncEnd => "E"
  , pid := pid
  , tid := tidRaw % 4294967296
  , ts := nowNs / 1000
  , arg := event.metadata.into_json }

/-- Embedding of the free function `write_event` of
`src/tracing_chromium/src/lib.rs`: serialize the record to the sink and
write a trailing comma, ignoring the result of both calls
(`let _ = serde_json::to_writer(...); let _ = output.write_all(b",");`). -/
def write_event (s : Sink) (nowNs pid tidRaw : Nat) (event : Event) : Sink :=
  let record := mkRecord nowNs pid tidRaw event
  let s1 := (s.write record.render).2
  let s2 := (s1.write ",").2
  s2

/-- Embedding of `tracing_chromium::Tracer`: the mutex-guarded sink.  The
mutex serializes sink access; the embedding is sequential, so the tracer is
just the sink it owns. -/
structure ChromiumTracer where
  output : Sink

/-- Embedding of `Tracer::from_output`: write the array-opening `[` to the
sink (result ignored) and wrap it. -/
def ChromiumTracer.from_output (s : Sink) : ChromiumTracer :=
  { output := (s.write "[").2 }

/-- Embedding of `<Tracer as tracing_facade::Tracer>::supports_metadata`
for the Chromium backend: unconditionally `true`. -/
def ChromiumTracer.supports_metadata (_ : ChromiumTracer) : Bool :=
  true

/-- Embedding of `<Tracer as tracing_facade::Tracer>::record_event`: lock
the sink and call `write_event` on it. -/
def ChromiumTracer.record_event (t : ChromiumTracer) (nowNs pid tidRaw : Nat)
    (event : Event) : ChromiumTracer :=
  { output := write_event t.output nowNs pid tidRaw event }

/-- Embedding of `<Tracer as tracing_facade::Tracer>::flush`: flush the
sink, discarding the result (`let _ = self.output.lock().unwrap().flush();`). -/
def ChromiumTracer.flush (t : ChromiumTracer) : ChromiumTracer :=
  { output := (t.output.flushCall).2 }

/-- Record a list of events through the Chromium tracer, each with its own
ambient `(nowNs, pid, tidRaw)` values. -/
def ChromiumTracer.recordAll (t : ChromiumTracer) :
    List (Nat × Nat × Nat × Event) → ChromiumTracer
  | [] => t
  | (nowNs, pid, tidRaw, e) :: rest =>
    (t.record_event nowNs pid tidRaw e).recordAll rest

/-!
The facade registry (`src/tracing_facade/src/lib.rs`): the tri-state
`STATE` atomic, the `TRACER` slot, `set_tracer_impl` and the four entry
points.  This is the sequential model: each API call runs to completion
before the next starts; the interleaved install protocol is modelled
separately below for the concurrency claim.
-/

/-- An installed backend, abstracted to the behaviour the facade observes
through the `Tracer` trait: the results of `is_enabled` and
`supports_metadata`.  (`record_event` and `flush` calls delivered to the
backend are tracked as `BackendCall` values.) -/
structure TracerImpl where
  is_enabled : Bool
  supports_metadata : Bool

/-- The three values of the `STATE` atomic: `uninit = UNINITIALIZED (0)`,
`inited = INITIALIZED (1)`, `initing = INITIALIZING (2)`.  (The `other =>
panic!` arm of the read loop is unreachable in the embedding because the
state type has exactly these three values.) -/
inductive RegState where
  | uninit : RegState
  | inited : RegState
  | initing : RegState
deriving DecidableEq, Repr

/-- The registry: the `STATE` atomic together with the
`static mut TRACER` slot (a nullable reference to a static tracer). -/
structure Registry where
  state : RegState
  tracer : Option TracerImpl

/-- The registry at process start: `STATE = UNINITIALIZED`,
`TRACER = None`. -/
def Registry.start : Registry :=
  { state := RegState.uninit, tracer := none }

/-- The panic message of the `Err(INITIALIZED) | Err(INITIALIZING)` arm of
`set_tracer_impl`. -/
def installPanicMessage : String :=
  "attempted to set a tracer after the tracing system was already initialized"

/-- Embedding of `set_tracer_impl`.  The winner path (CAS from
`UNINITIALIZED` to `INITIALIZING` succeeds) stores the tracer and performs
the second CAS to `INITIALIZED`; in this sequential model nothing
interferes, so the path is compressed into its final registry. On
`Err(INITIALIZED)` or `Err(INITIALIZING)` the call panics, embedded as
`Except.error` with the panic message; the panic arm writes nothing, so the
registry is unchanged on that path.  (`Err(UNINITIALIZED)` and other values
are unreachable.) -/
def setTracerImpl (t : TracerImpl) (r : Registry) : Except String Registry :=
  match r.state with
  | RegState.uninit =>
    Except.ok { state := RegState.inited, tracer := some t }
  | RegState.inited => Except.error installPanicMessage
  | RegState.initing => Except.error installPanicMessage

/-- Embedding of `set_tracer` (it just calls `set_tracer_impl`). -/
def setTracer (t : TracerImpl) (r : Registry) : Except String Registry :=
  setTracerImpl t r

/-- Embedding of `set_boxed_tracer` (it leaks the box and calls
`set_tracer_impl` on the leaked reference). -/
def setBoxedTracer (t : TracerImpl) (r : Registry) : Except String Registry :=
  setTracerImpl t r

/-- Embedding of the free function `is_enabled`: the read loop on `STATE`.
`UNINITIALIZED` returns `false`; `INITIALIZING` yields and re-reads (in the
sequential model the state cannot change, so the loop is fuel-indexed and
`none` means the loop was still spinning when the fuel ran out);
`INITIALIZED` dereferences the slot (`get_tracer_assume_init`, i.e.
`TRACER.unwrap()`; `none` also stands for the impossible unwrap panic) and
returns the `is_enabled` of the backend. -/
def facadeIsEnabled : Nat → Registry → Option Bool
  | 0, _ => none
  | Nat.succ fuel, r =>
    match r.state with
    | RegState.uninit => some false
    | RegState.initing => facadeIsEnabled fuel r
    | RegState.inited =>
      match r.tracer with
      | some t => some t.is_enabled
      | none => none

/-- Embedding of the free function `supports_metadata`: `if is_enabled()
\x7b get_tracer().supports_metadata() \x7d else \x7b false \x7d`. -/
def facadeSupportsMetadata (fuel : Nat) (r : Registry) : Option Bool :=
  match facadeIsEnabled fuel r with
  | none => none
  | some false => some false
  | some true =>
    match r.tracer with
    | some t => some t.supports_metadata
    | none => none

/-- A call delivered to the installed backend (the observable effect of a
facade entry point). -/
inductive BackendCall where
  | record (event : Event) : BackendCall
  | flushCall : BackendCall

/-- Embedding of the free function `record_event`: `if is_enabled()
\x7b get_tracer().record_event(event) \x7d`.  Returns the calls delivered
to the backend. -/
def facadeRecordEvent (fuel : Nat) (r : Registry) (event : Event) :
    Option (List BackendCall) :=
  match facadeIsEnabled fuel r with
  | none => none
  | some false => some []
  | some true =>
    match r.tracer with
    | some _ => some [BackendCall.record event]
    | none => none

/-- Embedding of the free function `flush`: `if is_enabled()
\x7b get_tracer().flush() \x7d`. -/
def facadeFlush (fuel : Nat) (r : Registry) : Option (List BackendCall) :=
  match facadeIsEnabled fuel r with
  | none => none
  | some false => some []
  | some true =>
    match r.tracer with
    | some _ => some [BackendCall.flushCall]
    | none => none

/-- One facade call, for reasoning about sequences of calls. -/
inductive FacadeOp where
  | isEnabledOp : FacadeOp
  | supportsMetadataOp : FacadeOp
  | recordEventOp (event : Event) : FacadeOp
  | flushOp : FacadeOp

/-- The value a facade call returns (booleans for the two queries, unit for
the two effectful entry points). -/
inductive FacadeResult where
  | bool (b : Bool) : FacadeResult
  | unit : FacadeResult

/-- Run one facade call against the registry: the result it returns and the
calls it delivers to the backend.  The four entry points only read the
registry, so the registry itself is unchanged. -/
def runFacadeOp (fuel : Nat) (r : Registry) :
    FacadeOp → Option (FacadeResult × List BackendCall)
  | FacadeOp.isEnabledOp =>
    (facadeIsEnabled fuel r).map (fun b => (FacadeResult.bool b, []))
  | FacadeOp.supportsMetadataOp =>
    (facadeSupportsMetadata fuel r).map (fun b => (FacadeResult.bool b, []))
  | FacadeOp.recordEventOp e =>
    (facadeRecordEvent fuel r e).map (fun calls => (FacadeResult.unit, calls))
  | FacadeOp.flushOp =>
    (facadeFlush fuel r).map (fun calls => (FacadeResult.unit, calls))

/-- Run a sequence of facade calls, collecting results and delivered
backend calls. -/
def runFacadeOps (fuel : Nat) (r : Registry) :
    List FacadeOp → Option (List FacadeResult × List BackendCall)
  | [] => some ([], [])
  | op :: rest =>
    match runFacadeOp fuel r op, runFacadeOps fuel r rest with
    | some (res, calls), some (results, callsRest) =>
      some (res :: results, calls ++ callsRest)
    | _, _ => none

/-- The value each entry point returns when no backend is installed:
`false` for the queries, unit for the no-ops. -/
def defaultResult : FacadeOp → FacadeResult
  | FacadeOp.isEnabledOp => FacadeResult.bool false
  | FacadeOp.supportsMetadataOp => FacadeResult.bool false
  | FacadeOp.recordEventOp _ => FacadeResult.unit
  | FacadeOp.flushOp => FacadeResult.unit

/-- An operation of the registry state machine for lifecycle reasoning:
either an installation attempt or one of the read-only entry points. -/
inductive RegistryOp where
  | install (t : TracerImpl) : RegistryOp
  | facadeCall (op : FacadeOp) : RegistryOp

/-- One step of the registry state machine.  An install that panics writes
nothing (the panic arm of `set_tracer_impl` stores neither `STATE` nor
`TRACER`), so the registry is unchanged; the entry points never write the
registry. -/
def registryStep (r : Registry) : RegistryOp → Registry
  | RegistryOp.install t =>
    match setTracerImpl t r with
    | Except.ok r2 => r2
    | Except.error _ => r
  | RegistryOp.facadeCall _ => r

/-- Run a sequence of registry operations. -/
def registryRun (r : Registry) (ops : List RegistryOp) : Registry :=
  ops.foldl registryStep r

/-!
Interleaved model of the install protocol (`set_tracer_impl`), for the
concurrency claim.  Each of `n` installer threads executes the body of
`set_tracer_impl` as three separate shared-memory actions, exactly as the
source orders them:

  1. `STATE.compare_exchange(UNINITIALIZED, INITIALIZING, ...)` — on
     success the thread proceeds; on `Err(INITIALIZING)`/`Err(INITIALIZED)`
     it panics;
  2. `TRACER = Some(tracer)` — the publication of the backend reference;
  3. `STATE.compare_exchange(INITIALIZING, INITIALIZED, ...).unwrap()` —
     on success the thread returns; a failed CAS would make the `unwrap`
     panic.

Steps of distinct threads interleave arbitrarily.  Reader threads only
read `STATE` and, after observing `INITIALIZED`, dereference `TRACER`;
they never write, so the invariant proved over installer interleavings
describes everything a reader can observe at any point.
-/

/-- Program counter of one installer thread running `set_tracer_impl`:
`start` = before the first CAS, `won` = first CAS succeeded (thread is the
recorded initializer), `wrote` = `TRACER` stored, `done` = second CAS
succeeded and the call returned, `panicked` = the thread hit a panic arm. -/
inductive InstallPC where
  | start : InstallPC
  | won : InstallPC
  | wrote : InstallPC
  | done : InstallPC
  | panicked : InstallPC
deriving DecidableEq, Repr

/-- Shared state of the interleaved install protocol with `n` installer
threads: the `STATE` atomic, the `TRACER` slot (recorded as the index of
the installer whose reference it holds), and the program counter of
each thread. -/
structure InstallWorld (n : Nat) where
  reg : RegState
  slot : Option (Fin n)
  pcs : Fin n → InstallPC

/-- Update the program counter of one thread. -/
def setPC {n : Nat} (pcs : Fin n → InstallPC) (i : Fin n) (p : InstallPC) :
    Fin n → InstallPC :=
  fun j => if j = i then p else pcs j

/-- One shared-memory action of installer thread `i`, following the body of
`set_tracer_impl` action by action. -/
inductive InstallStep {n : Nat} (i : Fin n) :
    InstallWorld n → InstallWorld n → Prop where
  | winCas (w : InstallWorld n) (hpc : w.pcs i = InstallPC.start)
      (hreg : w.reg = RegState.uninit) :
      InstallStep i w
        { reg := RegState.initing, slot := w.slot, pcs := setPC w.pcs i InstallPC.won }
  | loseCasIniting (w : InstallWorld n) (hpc : w.pcs i = InstallPC.start)
      (hreg : w.reg = RegState.initing) :
      InstallStep i w
        { reg := w.reg, slot := w.slot, pcs := setPC w.pcs i InstallPC.panicked }
  | loseCasInited (w : InstallWorld n) (hpc : w.pcs i = InstallPC.start)
      (hreg : w.reg = RegState.inited) :
      InstallStep i w
        { reg := w.reg, slot := w.slot, pcs := setPC w.pcs i InstallPC.panicked }
  | publish (w : InstallWorld n) (hpc : w.pcs i = InstallPC.won) :
      InstallStep i w
        { reg := w.reg, slot := some i, pcs := setPC w.pcs i InstallPC.wrote }
  | finishCasOk (w : InstallWorld n) (hpc : w.pcs i = InstallPC.wrote)
      (hreg : w.reg = RegState.initing) :
      InstallStep i w
        { reg := RegState.inited, slot := w.slot, pcs := setPC w.pcs i InstallPC.done }
  | finishCasFail (w : InstallWorld n) (hpc : w.pcs i = InstallPC.wrote)
      (hreg : w.reg ≠ RegState.initing) :
      InstallStep i w
        { reg := w.reg, slot := w.slot, pcs := setPC w.pcs i InstallPC.panicked }

/-- The initial world: `STATE = UNINITIALIZED`, empty slot, every thread
about to call `set_tracer_impl`. -/
def initWorld (n : Nat) : InstallWorld n :=
  { reg := RegState.uninit, slot := none, pcs := fun _ => InstallPC.start }

/-- Worlds reachable from the initial world by arbitrary interleavings of
the actions of the installer threads. -/
inductive ReachableWorld (n : Nat) : InstallWorld n → Prop where
  | init : ReachableWorld n (initWorld n)
  | step {w w2 : InstallWorld n} (i : Fin n) (hw : ReachableWorld n w)
      (hs : InstallStep i w w2) : ReachableWorld n w2

/-- Invariant of the interleaved install protocol, tying the `STATE` value
to the thread program counters and the slot. -/
def InstallInv {n : Nat} (w : InstallWorld n) : Prop :=
  (w.reg = RegState.uninit → w.slot = none ∧ ∀ j, w.pcs j = InstallPC.start) ∧
  (w.reg = RegState.initing →
    ∃ j, (w.pcs j = InstallPC.won ∨ (w.pcs j = InstallPC.wrote ∧ w.slot = some j)) ∧
      ∀ k, k ≠ j → w.pcs k = InstallPC.start ∨ w.pcs k = InstallPC.panicked) ∧
  (w.reg = RegState.inited →
    ∃ j, w.pcs j = InstallPC.done ∧ w.slot = some j ∧
      ∀ k, k ≠ j → w.pcs k = InstallPC.start ∨ w.pcs k = InstallPC.panicked)

/-- Concatenation of a list of strings, in order. -/
def concatAll : List String → String
  | [] => ""
  | s :: rest => s ++ concatAll rest

/-- First world of a concrete two-thread race: thread 0 has won the first
CAS of `set_tracer_impl`. -/
def raceWorld1 : InstallWorld 2 :=
  { reg := RegState.initing, slot := none
  , pcs := setPC (fun _ => InstallPC.start) 0 InstallPC.won }

/-- Thread 0 has published its reference into the `TRACER` slot. -/
def raceWorld2 : InstallWorld 2 :=
  { reg := RegState.initing, slot := some 0
  , pcs := setPC raceWorld1.pcs 0 InstallPC.wrote }

/-- Thread 0 has completed the second CAS; `STATE = INITIALIZED`. -/
def raceWorld3 : InstallWorld 2 :=
  { reg := RegState.inited, slot := some 0
  , pcs := setPC raceWorld2.pcs 0 InstallPC.done }

/-- Terminal world of the race: thread 1 then observes `INITIALIZED` in its
first CAS and panics. -/
def raceWorld : InstallWorld 2 :=
  { reg := RegState.inited, slot := some 0
  , pcs := setPC raceWorld3.pcs 1 InstallPC.panicked }

theorem installInv_initWorld (n : Nat) : InstallInv (initWorld n) := by
  refine ⟨fun _ => ⟨rfl, fun _ => rfl⟩, fun h => ?_, fun h => ?_⟩ <;>
    exact absurd h (by simp [initWorld])

theorem installInv_step {n : Nat} {i : Fin n} {w w2 : InstallWorld n}
    (hInv : InstallInv w) (hs : InstallStep i w w2) : InstallInv w2 := by
  obtain ⟨h1, h2, h3⟩ := hInv
  cases hs with
  | winCas hpc hreg =>
    obtain ⟨hslot, hall⟩ := h1 hreg
    refine ⟨fun h => ?_, fun _ => ?_, fun h => ?_⟩
    · exact absurd h (by simp)
    · refine ⟨i, Or.inl (by simp [setPC]), fun k hk => Or.inl ?_⟩
      simp only [setPC, if_neg hk]
      exact hall k
    · exact absurd h (by simp)
  | loseCasIniting hpc hreg =>
    obtain ⟨j, hjwin, hall⟩ := h2 hreg
    have hjns : w.pcs j ≠ InstallPC.start := by
      rcases hjwin with h | h
      · rw [h]; decide
      · rw [h.1]; decide
    have hij : i ≠ j := fun he => hjns (he ▸ hpc)
    refine ⟨fun h => ?_, fun _ => ?_, fun h => ?_⟩
    · dsimp at h; rw [hreg] at h; exact absurd h (by decide)
    · refine ⟨j, ?_, fun k hk => ?_⟩
      · simp only [setPC, if_neg (Ne.symm hij)]
        exact hjwin
      · by_cases hki : k = i
        · subst hki; right; simp [setPC]
        · simp only [setPC, if_neg hki]
          exact hall k hk
    · dsimp at h; rw [hreg] at h; exact absurd h (by decide)
  | loseCasInited hpc hreg =>
    obtain ⟨j, hjd, hslot, hall⟩ := h3 hreg
    have hij : i ≠ j := fun he => by
      rw [he, hjd] at hpc; exact absurd hpc (by decide)
    refine ⟨fun h => ?_, fun h => ?_, fun _ => ?_⟩
    · dsimp at h; rw [hreg] at h; exact absurd h (by decide)
    · dsimp at h; rw [hreg] at h; exact absurd h (by decide)
    · refine ⟨j, ?_, hslot, fun k hk => ?_⟩
      · simp only [setPC, if_neg (Ne.symm hij)]
        exact hjd
      · by_cases hki : k = i
        · subst hki; right; simp [setPC]
        · simp only [setPC, if_neg hki]
          exact hall k hk
  | publish hpc =>
    have hregi : w.reg = RegState.initing := by
      cases hr : w.reg
      case uninit =>
        obtain ⟨_, hall⟩ := h1 hr
        rw [hall i] at hpc; exact absurd hpc (by decide)
      case inited =>
        obtain ⟨j, hjd, _, hall⟩ := h3 hr
        by_cases hij : i = j
        · rw [hij, hjd] at hpc; exact absurd hpc (by decide)
        · rcases hall i hij with h | h <;> rw [h] at hpc <;>
            exact absurd hpc (by decide)
      case initing => rfl
    obtain ⟨j, hjwin, hall⟩ := h2 hregi
    have hij : i = j := by
      by_contra hne
      rcases hall i hne with h | h <;> rw [h] at hpc <;>
        exact absurd hpc (by decide)
    subst hij
    refine ⟨fun h => ?_, fun _ => ?_, fun h => ?_⟩
    · dsimp at h; rw [hregi] at h; exact absurd h (by decide)
    · refine ⟨i, Or.inr ⟨by simp [setPC], rfl⟩, fun k hk => ?_⟩
      simp only [setPC, if_neg hk]
      exact hall k hk
    · dsimp at h; rw [hregi] at h; exact absurd h (by decide)
  | finishCasOk hpc hreg =>
    obtain ⟨j, hjwin, hall⟩ := h2 hreg
    have hij : i = j := by
      by_contra hne
      rcases hall i hne with h | h <;> rw [h] at hpc <;>
        exact absurd hpc (by decide)
    subst hij
    have hslot : w.slot = some i := by
      rcases hjwin with h | h
      · rw [h] at hpc; exact absurd hpc (by decide)
      · exact h.2
    refine ⟨fun h => ?_, fun h => ?_, fun _ => ?_⟩
    · exact absurd h (by simp)
    · exact absurd h (by simp)
    · refine ⟨i, by simp [setPC], hslot, fun k hk => ?_⟩
      simp only [setPC, if_neg hk]
      exact hall k hk
  | finishCasFail hpc hreg =>
    exfalso
    apply hreg
    cases hr : w.reg
    case uninit =>
      obtain ⟨_, hall⟩ := h1 hr
      rw [hall i] at hpc; exact absurd hpc (by decide)
    case inited =>
      obtain ⟨j, hjd, _, hall⟩ := h3 hr
      by_cases hij : i = j
      · rw [hij, hjd] at hpc; exact absurd hpc (by decide)
      · rcases hall i hij with h | h <;> rw [h] at hpc <;>
          exact absurd hpc (by decide)
    case initing => rfl

theorem installInv_reachable {n : Nat} {w : InstallWorld n}
    (h : ReachableWorld n w) : InstallInv w := by
  induction h with
  | init => exact installInv_initWorld n
  | step i hw hs ih => exact installInv_step ih hs

/-!
Claim theorems.
-/

/-- Content of a run of `record_event` calls over a sink whose writes all
succeed: each event appends its serialized record followed by a comma. -/
theorem recordAll_content (evs : List (Nat × Nat × Nat × Event)) (c : String) :
    (ChromiumTracer.recordAll { output := { content := c, outcomes := [] } } evs).output =
      { content := c ++ concatAll (evs.map fun q =>
          (mkRecord q.1 q.2.1 q.2.2.1 q.2.2.2).render ++ ","), outcomes := [] } := by
  induction evs generalizing c with
  | nil => simp [ChromiumTracer.recordAll, concatAll]
  | cons q rest ih =>
    obtain ⟨nowNs, pid, tidRaw, e⟩ := q
    have hstep :
        ChromiumTracer.record_event { output := { content := c, outcomes := [] } }
          nowNs pid tidRaw e =
        { output := { content := c ++ ((mkRecord nowNs pid tidRaw e).render ++ ","),
                      outcomes := [] } } := by
      simp [ChromiumTracer.record_event, write_event, Sink.write, String.append_assoc]
    show (ChromiumTracer.recordAll _ (_ :: rest)).output = _
    rw [ChromiumTracer.recordAll, hstep, ih]
    simp [concatAll, String.append_assoc]

/-- C1: a first call to `install` (`set_tracer` / `set_boxed_tracer`, both
of which call `set_tracer_impl`) with the registry `UNINITIALIZED` succeeds
and publishes the tracer; any call observing `INITIALIZING` or
`INITIALIZED` panics (the fatal `Except.error installPanicMessage` path)
instead of being silently ignored. -/
theorem install_second_call_panics (t : TracerImpl) (slot : Option TracerImpl) :
    (setTracer t { state := RegState.uninit, tracer := slot } =
        Except.ok { state := RegState.inited, tracer := some t } ∧
      setBoxedTracer t { state := RegState.uninit, tracer := slot } =
        Except.ok { state := RegState.inited, tracer := some t }) ∧
    (∀ st : RegState, st = RegState.initing ∨ st = RegState.inited →
      setTracer t { state := st, tracer := slot } = Except.error installPanicMessage ∧
      setBoxedTracer t { state := st, tracer := slot } = Except.error installPanicMessage) := by
  refine ⟨⟨rfl, rfl⟩, ?_⟩
  rintro st (rfl | rfl) <;> exact ⟨rfl, rfl⟩

/-- Witness for C1: a concrete second install attempt (registry already
`INITIALIZED`) hits the panic path. -/
theorem install_second_call_panics_witness :
    setTracer { is_enabled := true, supports_metadata := true }
        { state := RegState.inited, tracer := none } =
      Except.error installPanicMessage :=
  ((install_second_call_panics
      { is_enabled := true, supports_metadata := true } none).2
    RegState.inited (Or.inr rfl)).1

/-- C2: with no backend installed (`STATE = UNINITIALIZED`), every sequence
of facade calls returns `false` from `is_enabled`, `false` from
`supports_metadata`, and unit from `record_event`/`flush`, and delivers no
call to any backend; the result is the same for every content of the
`TRACER` slot, so the slot is never touched. -/
theorem uninstalled_facade_noop (fuel : Nat) (slot : Option TracerImpl)
    (ops : List FacadeOp) :
    runFacadeOps (fuel + 1) { state := RegState.uninit, tracer := slot } ops =
      some (ops.map defaultResult, []) := by
  induction ops with
  | nil => rfl
  | cons op rest ih =>
    have hop : runFacadeOp (fuel + 1) { state := RegState.uninit, tracer := slot } op =
        some (defaultResult op, []) := by
      cases op <;> rfl
    rw [runFacadeOps, hop, ih]
    rfl

/-- C4: `INITIALIZED` is a terminal state of the registry state machine:
from any registry with `STATE = INITIALIZED`, every sequence of install and
read operations leaves the registry — in particular the `TRACER` slot —
exactly as it is (a second install panics without writing, reads never
write), so the slot, once written, is never cleared or replaced. -/
theorem inited_is_terminal (r : Registry) (h : r.state = RegState.inited)
    (ops : List RegistryOp) :
    registryRun r ops = r := by
  obtain ⟨st, tr⟩ := r
  dsimp at h
  subst h
  induction ops with
  | nil => rfl
  | cons op rest ih =>
    have hstep : registryStep { state := RegState.inited, tracer := tr } op =
        { state := RegState.inited, tracer := tr } := by
      cases op <;> rfl
    show List.foldl registryStep _ (op :: rest) = _
    rw [List.foldl_cons, hstep]
    exact ih

/-- Witness for C4: a concrete initialized registry survives an install
attempt and a flush unchanged. -/
theorem inited_is_terminal_witness :
    registryRun
        { state := RegState.inited,
          tracer := some { is_enabled := true, supports_metadata := true } }
        [RegistryOp.install { is_enabled := true, supports_metadata := false },
         RegistryOp.facadeCall FacadeOp.flushOp] =
      { state := RegState.inited,
        tracer := some { is_enabled := true, supports_metadata := true } } :=
  inited_is_terminal
    { state := RegState.inited,
      tracer := some { is_enabled := true, supports_metadata := true } }
    rfl
    [RegistryOp.install { is_enabled := true, supports_metadata := false },
     RegistryOp.facadeCall FacadeOp.flushOp]

/-- Counterexample to C5: install (from the initial registry) a backend
whose `is_enabled` is `false` but whose `supports_metadata` is `true`.  The
registry is `INITIALIZED` and the backend reports `supports_metadata =
true`, yet the `supports_metadata` of the facade returns `false` — because the
source routes `supports_metadata` through `is_enabled()` first — so the
facade is not a pure pass-through of the `supports_metadata` of the
backend. -/
theorem supports_metadata_not_pass_through :
    setTracerImpl { is_enabled := false, supports_metadata := true } Registry.start =
      Except.ok { state := RegState.inited,
                  tracer := some { is_enabled := false, supports_metadata := true } } ∧
    TracerImpl.supports_metadata { is_enabled := false, supports_metadata := true } = true ∧
    facadeSupportsMetadata 1
        { state := RegState.inited,
          tracer := some { is_enabled := false, supports_metadata := true } } =
      some false :=
  ⟨rfl, rfl, rfl⟩

/-- C5 as amended: with a backend installed (`STATE = INITIALIZED`), the
`supports_metadata` of the facade returns the `supports_metadata` of the
backend only when the `is_enabled` of the backend is `true`; when the backend reports
`is_enabled = false` the facade returns `false` regardless of the
`supports_metadata` of the backend.  Equivalently it returns
`is_enabled && supports_metadata` of the installed backend. -/
theorem supports_metadata_gated_by_is_enabled (fuel : Nat) (t : TracerImpl) :
    facadeSupportsMetadata (fuel + 1) { state := RegState.inited, tracer := some t } =
      some (t.is_enabled && t.supports_metadata) := by
  cases h : t.is_enabled <;>
    simp [facadeSupportsMetadata, facadeIsEnabled, h]

/-- Counterexample to C3: the serialized record never carries an `args`
field — the struct field is spelled `arg` — so a record for an event
carrying metadata `\x7b"value": 42\x7d` has no `args` field deep-equal to
the metadata; and a record for an event carrying no metadata serializes
`"arg": null` (the `Option` field has no `skip_serializing_if`), so the
metadata field is present as `null`, not omitted. -/
theorem args_field_counterexample :
    (mkRecord 3000 7 9
        { name := "foo", kind := EventKind.syncBegin,
          metadata := Metadata.from_json (Json.obj [("value", Json.num 42)]) }).toJson.lookupField
        "args" = none ∧
    (mkRecord 3000 7 9
        { name := "foo", kind := EventKind.syncBegin,
          metadata := Metadata.mkDefault }).toJson.lookupField "arg" =
      some Json.null :=
  ⟨rfl, rfl⟩

/-- C3 as amended: for every event the serialized record carries the
metadata under the field name `arg` (never `args`): when the event carries
metadata JSON `m` the `arg` field is deep-equal to `m`, and when it carries
no metadata the `arg` field is serialized as JSON `null` (present, not
omitted). -/
theorem arg_field_roundtrip (nowNs pid tidRaw : Nat) (e : Event) :
    (mkRecord nowNs pid tidRaw e).toJson.lookupField "arg" =
      some (match e.metadata.json with | none => Json.null | some j => j) ∧
    (mkRecord nowNs pid tidRaw e).toJson.lookupField "args" = none := by
  obtain ⟨name, kind, m⟩ := e
  obtain ⟨mj⟩ := m
  cases mj <;> exact ⟨rfl, rfl⟩

/-- C6: a Chromium tracer constructed over a sink (here with every write
succeeding) writes the single byte `[` at construction, before any record;
after recording `n` events the sink content is exactly that `[` followed by
the `n` serialized JSON records in order, each immediately followed by a
literal `,` — and nothing else, in particular no closing `]` is ever
appended by the component. -/
theorem chromium_stream_format (c : String) (evs : List (Nat × Nat × Nat × Event)) :
    ((ChromiumTracer.from_output { content := c, outcomes := [] }).recordAll evs).output.content =
      c ++ "[" ++ concatAll (evs.map fun q =>
        (mkRecord q.1 q.2.1 q.2.2.1 q.2.2.2).render ++ ",") := by
  have hfrom : ChromiumTracer.from_output { content := c, outcomes := [] } =
      { output := { content := c ++ "[", outcomes := [] } } := rfl
  rw [hfrom, recordAll_content]

/-- C7: the `ph` field of every serialized record is `"B"` exactly when the
kind of the event is `SyncBegin` and `"E"` exactly when it is `SyncEnd`, and no
other value ever appears. -/
theorem phase_mapping (nowNs pid tidRaw : Nat) (e : Event) :
    (e.kind = EventKind.syncBegin → (mkRecord nowNs pid tidRaw e).ph = "B") ∧
    (e.kind = EventKind.syncEnd → (mkRecord nowNs pid tidRaw e).ph = "E") ∧
    ((mkRecord nowNs pid tidRaw e).ph = "B" ∨ (mkRecord nowNs pid tidRaw e).ph = "E") := by
  obtain ⟨name, kind, m⟩ := e
  cases kind
  · refine ⟨fun _ => rfl, fun h => ?_, Or.inl rfl⟩
    simp at h
  · refine ⟨fun h => ?_, fun _ => rfl, Or.inr rfl⟩
    simp at h

/-- Witness for C7: a concrete begin event gets phase `"B"`. -/
theorem phase_mapping_witness :
    (mkRecord 0 0 0
        { name := "foo", kind := EventKind.syncBegin,
          metadata := Metadata.mkDefault }).ph = "B" :=
  (phase_mapping 0 0 0
      { name := "foo", kind := EventKind.syncBegin,
        metadata := Metadata.mkDefault }).1 rfl

/-- C8: `record_event` and `flush` of the Chromium backend are total over
every sink behaviour — both write results inside `write_event` are
discarded (`let _ = ...`), so no error propagates — and whatever the sink
does, the content afterwards is the old content followed by the whole
record-plus-comma, only the record, only the comma, or nothing: at most the
affected record is lost.  `flush` never changes the content and swallows
its error the same way. -/
theorem chromium_errors_swallowed (s : Sink) (nowNs pid tidRaw : Nat) (e : Event)
    (t : ChromiumTracer) :
    (∃ suffix,
      (write_event s nowNs pid tidRaw e).content = s.content ++ suffix ∧
      (suffix = (mkRecord nowNs pid tidRaw e).render ++ "," ∨
       suffix = (mkRecord nowNs pid tidRaw e).render ∨
       suffix = "," ∨ suffix = "")) ∧
    (t.flush).output.content = t.output.content := by
  constructor
  · obtain ⟨c, oc⟩ := s
    rcases oc with _ | ⟨f1, rest⟩
    · exact ⟨(mkRecord nowNs pid tidRaw e).render ++ ",",
        by simp [write_event, Sink.write, String.append_assoc], Or.inl rfl⟩
    · cases f1
      · rcases rest with _ | ⟨f2, r2⟩
        · exact ⟨(mkRecord nowNs pid tidRaw e).render ++ ",",
            by simp [write_event, Sink.write, String.append_assoc], Or.inl rfl⟩
        · cases f2
          · exact ⟨(mkRecord nowNs pid tidRaw e).render ++ ",",
              by simp [write_event, Sink.write, String.append_assoc], Or.inl rfl⟩
          · exact ⟨(mkRecord nowNs pid tidRaw e).render,
              by simp [write_event, Sink.write], Or.inr (Or.inl rfl)⟩
      · rcases rest with _ | ⟨f2, r2⟩
        · exact ⟨",", by simp [write_event, Sink.write], Or.inr (Or.inr (Or.inl rfl))⟩
        · cases f2
          · exact ⟨",", by simp [write_event, Sink.write], Or.inr (Or.inr (Or.inl rfl))⟩
          · exact ⟨"", by simp [write_event, Sink.write], Or.inr (Or.inr (Or.inr rfl))⟩
  · obtain ⟨⟨c, oc⟩⟩ := t
    rcases oc with _ | ⟨f, rest⟩ <;> rfl

/-- C9: in every world reachable by interleaving `n` racing installer
threads, (a) whenever `STATE = INITIALIZED` there is an installer that
completed the protocol and the `TRACER` slot holds exactly its reference —
publication is complete before `INITIALIZED` becomes observable, so a
reader (which dereferences the slot only after observing `INITIALIZED`)
never sees a partially-published backend; and (b) once every installer has
finished (returned or panicked), exactly one installer succeeded and the
slot holds its reference — all the others took the fatal panic path. -/
theorem install_race_single_winner {n : Nat} (w : InstallWorld n)
    (hw : ReachableWorld n w) :
    (w.reg = RegState.inited →
      ∃ j, w.pcs j = InstallPC.done ∧ w.slot = some j) ∧
    ((∀ j, w.pcs j = InstallPC.done ∨ w.pcs j = InstallPC.panicked) → 0 < n →
      ∃ j, w.pcs j = InstallPC.done ∧ w.slot = some j ∧
        ∀ k, w.pcs k = InstallPC.done → k = j) := by
  obtain ⟨h1, h2, h3⟩ := installInv_reachable hw
  constructor
  · intro hreg
    obtain ⟨j, hjd, hslot, _⟩ := h3 hreg
    exact ⟨j, hjd, hslot⟩
  · intro hfin hn
    cases hr : w.reg
    case uninit =>
      obtain ⟨_, hall⟩ := h1 hr
      rcases hfin ⟨0, hn⟩ with h | h <;> rw [hall ⟨0, hn⟩] at h <;>
        exact absurd h (by decide)
    case initing =>
      obtain ⟨j, hjwin, _⟩ := h2 hr
      have hj := hfin j
      rcases hjwin with hw1 | hw2
      · rcases hj with h | h <;> rw [hw1] at h <;> exact absurd h (by decide)
      · rcases hj with h | h <;> rw [hw2.1] at h <;> exact absurd h (by decide)
    case inited =>
      obtain ⟨j, hjd, hslot, hall⟩ := h3 hr
      refine ⟨j, hjd, hslot, fun k hk => ?_⟩
      by_contra hne
      rcases hall k hne with h | h <;> rw [hk] at h <;> exact absurd h (by decide)

/-- Witness for C9: the concrete two-thread race `raceWorld` is reachable,
all threads have finished, and the theorem yields its unique winner. -/
theorem install_race_single_winner_witness :
    ∃ j, raceWorld.pcs j = InstallPC.done ∧ raceWorld.slot = some j ∧
      ∀ k, raceWorld.pcs k = InstallPC.done → k = j := by
  have s0 : ReachableWorld 2 (initWorld 2) := ReachableWorld.init
  have s1 : ReachableWorld 2 raceWorld1 :=
    ReachableWorld.step 0 s0 (InstallStep.winCas (initWorld 2) rfl rfl)
  have s2 : ReachableWorld 2 raceWorld2 :=
    ReachableWorld.step 0 s1 (InstallStep.publish raceWorld1 (by decide))
  have s3 : ReachableWorld 2 raceWorld3 :=
    ReachableWorld.step 0 s2 (InstallStep.finishCasOk raceWorld2 (by decide) rfl)
  have s4 : ReachableWorld 2 raceWorld :=
    ReachableWorld.step 1 s3 (InstallStep.loseCasInited raceWorld3 (by decide) rfl)
  exact (install_race_single_winner raceWorld s4).2 (by decide) (by decide)

/-- C10: `Metadata` round-trips its JSON payload through the public
accessors — `from_json` followed by `as_json` or `into_json` gives back
exactly the value, while the default metadata yields `none` from both — so
absence and presence of metadata are exactly distinguishable. -/
theorem metadata_roundtrip (j : Json) :
    (Metadata.from_json j).as_json = some j ∧
    (Metadata.from_json j).into_json = some j ∧
    Metadata.mkDefault.as_json = none ∧
    Metadata.mkDefault.into_json = none :=
  ⟨rfl, rfl, rfl, rfl⟩
